import Mathlib

/-!
Verification of the `adi-cacheducks` Application Data Interface (ADI).

The development shallowly embeds the repository's orchestration layer:
* `src/create-cache-interface.ts` — the cache adapter that resolves a logical
  store name to a concrete backend (or the browser-local default store), and
* `src/ADI.ts` (the module re-exported through `src/types.ts`) — the
  orchestrator state machine: lifecycle, read/write/list/publish operations
  and the subscriber registry, plus
* `src/index.ts` — `createDataCacheAPI` / `validateCacheMap`.

JavaScript values flowing through the cache are modelled by `Val`
(null/undefined collapse to `Val.vnull`; strings and arrays carry their JS
truthiness).  Asynchronous backend calls are modelled as pure state-passing
functions (the code awaits each call to completion before continuing, and the
spec's concurrency model is single-threaded cooperative scheduling).  A
caller-supplied `fallback` producer is modelled by the value it resolves to,
and every operation reports how many times the fallback was invoked.
Thrown `Error(msg)` exceptions are modelled by `Except String` carrying the
exact message string used by the source.  Notification fan-out is modelled by
recording the list of `notifyAll` events an operation emits; delivery to the
subscriber registry is the separate function `notifyCalls`.
-/

namespace ADI

/-- A JavaScript value as it flows through the cache: `vnull` stands for both
`null` and `undefined`, `vstr` for strings, `varr` for arrays (and the
array-carrying paginated-result objects the backends return). -/
inductive Val where
  | vnull : Val
  | vstr : String → Val
  | varr : List Val → Val

/-- JS truthiness: `null`/`undefined` are falsy, a string is truthy iff
non-empty, an array (object) is always truthy. -/
def Val.truthy : Val → Bool
  | .vnull => false
  | .vstr s => !s.isEmpty
  | .varr _ => true

/-- A key-value backend store (`localStorage`, or one named db of the cache
map), modelled as an association list. -/
abbrev Store := List (String × Val)

/-- Association-list lookup (first binding wins, as in a JS object). -/
def alistGet {α : Type} : List (String × α) → String → Option α
  | [], _ => none
  | (k, v) :: rest, key => if k = key then some v else alistGet rest key

/-- Association-list write: bind `key` to `v`, dropping any previous binding. -/
def alistPut {α : Type} (l : List (String × α)) (key : String) (v : α) :
    List (String × α) :=
  (key, v) :: l.filter (fun p => p.1 ≠ key)

/-- Association-list delete: drop every binding of `key`. -/
def alistDel {α : Type} (l : List (String × α)) (key : String) :
    List (String × α) :=
  l.filter (fun p => p.1 ≠ key)

/-- Replace the (first) binding of `key` by `v`; no insertion if absent.
Models a mutation of the object already stored in the map. -/
def alistReplace {α : Type} : List (String × α) → String → α → List (String × α)
  | [], _, _ => []
  | (k, v) :: rest, key, new =>
    if k = key then (key, new) :: rest else (k, v) :: alistReplace rest key new

/-- The state behind one cache adapter: the browser-local default store plus
the named backend stores of the cache map supplied at `start`. -/
structure CacheState where
  localStore : Store
  dbs : List (String × Store)

/-- JS falsiness of an optional store name (`!cacheKey`): absent or empty. -/
def falsyKey : Option String → Bool
  | none => true
  | some s => s.isEmpty

/-- Backend contract `getItem(id)`: resolves the stored value or `null`. -/
def dbGet (db : Store) (key : String) : Val :=
  (alistGet db key).getD Val.vnull

/-- Backend contract `listItems(opts)`: resolves the store's values (the
paginated wrapper is abstracted to the data array). -/
def dbListItems (db : Store) : Val :=
  Val.varr (db.map (fun p => p.2))

/-- Adapter `getItem` on the default store: `local.getItem(key) || null`. -/
def localGet (c : CacheState) (key : String) : Val :=
  match alistGet c.localStore key with
  | none => Val.vnull
  | some v => if v.truthy then v else Val.vnull

/-- Adapter `getItem(key, cacheKey?)` from `create-cache-interface.ts`:
no (or empty) `cacheKey` reads `localStorage`; otherwise the named db is
queried (`db.listItems` when `key === "all"`, else `db.getItem`), and a
missing db resolves to `null`. -/
def cacheGetItem (c : CacheState) (key : String) (cacheKey : Option String) :
    Val :=
  match cacheKey with
  | none => localGet c key
  | some s =>
    if s.isEmpty then localGet c key
    else
      match alistGet c.dbs s with
      | none => Val.vnull
      | some db => if key = "all" then dbListItems db else dbGet db key

/-- Adapter `setItem(key, value, cacheKey?)`: write to `localStorage` when the
store name is falsy, else `db.putItem` on the named db (no-op if missing). -/
def cacheSetItem (c : CacheState) (key : String) (v : Val)
    (cacheKey : Option String) : CacheState :=
  match cacheKey with
  | none => { c with localStore := alistPut c.localStore key v }
  | some s =>
    if s.isEmpty then { c with localStore := alistPut c.localStore key v }
    else
      match alistGet c.dbs s with
      | none => c
      | some db => { c with dbs := alistReplace c.dbs s (alistPut db key v) }

/-- Adapter `removeItem(key, cacheKey?)`: remove from `localStorage` when the
store name is falsy, else `db.removeItem` on the named db (no-op if missing). -/
def cacheRemoveItem (c : CacheState) (key : String) (cacheKey : Option String) :
    CacheState :=
  match cacheKey with
  | none => { c with localStore := alistDel c.localStore key }
  | some s =>
    if s.isEmpty then { c with localStore := alistDel c.localStore key }
    else
      match alistGet c.dbs s with
      | none => c
      | some db => { c with dbs := alistReplace c.dbs s (alistDel db key) }

/-- Query options passed to `listItems`; the core interprets only `cacheKey`. -/
structure ListQueryOpts where
  cacheKey : Option String
  page : Option Nat
  resultsPerPage : Option Nat
  orderBy : Option String
deriving DecidableEq, Repr

/-- Adapter `listItems(opts)`: query the named db's list capability, with the
empty result for a missing name and `(await db.listItems(opts)) || empty`. -/
def cacheListItems (c : CacheState) (opts : ListQueryOpts) : Val :=
  match opts.cacheKey with
  | none => Val.varr []
  | some s =>
    match alistGet c.dbs s with
    | none => Val.varr []
    | some db =>
      let r := dbListItems db
      if r.truthy then r else Val.varr []

/-- A notification handed to `notifyAll(key, val, cacheKey)`. -/
structure Notification where
  key : String
  value : Val
  cacheKey : Option String

/-- An entry of the subscriber registry: a plain listener registered through
`subscribe`, or the filter closure `subscribeToCaches` pushes, wrapping the
inner listener with its cache scope and `withinBounds` predicate.  Listeners
are identified by a numeric id, standing for JS function identity. -/
inductive Subscriber where
  | global (id : Nat)
  | scoped (id : Nat) (caches : List String)
      (withinBounds : String → Val → Option String → Bool)

/-- The id of the (inner) listener an entry invokes. -/
def Subscriber.sid : Subscriber → Nat
  | .global i => i
  | .scoped i _ _ => i

/-- JS `caches.includes(c)` for a string array and a possibly-undefined `c`:
`undefined` is never a member of a string array. -/
def jsIncludes (caches : List String) : Option String → Bool
  | none => false
  | some s => caches.contains s

/-- Whether a registry entry invokes its listener on a notification: a global
listener always fires; the `subscribeToCaches` filter fires iff
`caches.includes(c) && withinBounds(k, v, c)`. -/
def Subscriber.fires : Subscriber → Notification → Bool
  | .global _, _ => true
  | .scoped _ caches wb, n => jsIncludes caches n.cacheKey && wb n.key n.value n.cacheKey

/-- Fan-out of one `notifyAll` event: the ids of the listeners invoked, in
registration order. -/
def notifyCalls (subs : List Subscriber) (n : Notification) : List Nat :=
  (subs.filter (fun s => s.fires n)).map Subscriber.sid

/-- The module-level mutable state of `src/ADI.ts`: the `initialized` flag,
the `cache` adapter reference and the `subscribers` array. -/
structure ADIState where
  initialized : Bool
  cache : Option CacheState
  subscribers : List Subscriber

/-- The state at module load: `initialized = false`, no adapter, no
subscribers. -/
def initialState : ADIState := ⟨false, none, []⟩

/-- The default `withinBounds` predicate of `subscribeToCaches`:
`(...any) => Array.isArray(any)` — a rest parameter is always an array, so
this is constantly true. -/
def defaultBounds : String → Val → Option String → Bool := fun _ _ _ => true

/-- Outcome of running one ADI operation: the returned value or the thrown
error message, the post-state, the `notifyAll` events emitted (in order), and
how many times the caller-supplied `fallback` producer was invoked. -/
structure Out (α : Type) where
  result : Except String α
  state : ADIState
  notifs : List Notification
  fallbackCalls : Nat

/-- `publishError("ADI is not initialized")`. -/
def notInitializedError : String := "ADI is not initialized"

/-- `publishError("Item Key was not supplied for caching")`. -/
def missingKeyError : String := "Item Key was not supplied for caching"

/-- `publishError("Invalid ADI subscriber")`. -/
def invalidSubscriberError : String := "Invalid ADI subscriber"

/-- `publishError("Subscription requires at least one cache name")`. -/
def emptyScopeError : String := "Subscription requires at least one cache name"

/-- `isInitialized()`. -/
def isInitialized (st : ADIState) : Bool := st.initialized

/-- `onApplicationStart(config)`: a no-op when already initialized, else set
the adapter and the flag. -/
def onApplicationStart (config : CacheState) (st : ADIState) : ADIState :=
  if isInitialized st then st
  else { st with cache := some config, initialized := true }

/-- `onApplicationEnd()`: unconditionally clear the adapter and the flag. -/
def onApplicationEnd (st : ADIState) : ADIState :=
  { st with cache := none, initialized := false }

/-- `cache?.getItem(key, cacheKey)`: optional chaining yields `undefined`
when the adapter reference is null. -/
def readCache (st : ADIState) (key : String) (cacheKey : Option String) : Val :=
  match st.cache with
  | none => Val.vnull
  | some c => cacheGetItem c key cacheKey

/-- `cacheItem(key, value, cacheKey?)`: gated on initialization, then on a
non-empty key; a truthy value is written via `cache?.setItem`, a falsy one
removed via `cache?.removeItem`; then `notifyAll(key, value, cacheKey)` and
return `value`. -/
def cacheItem (key : String) (value : Val) (cacheKey : Option String)
    (st : ADIState) : Out Val :=
  if !st.initialized then ⟨.error notInitializedError, st, [], 0⟩
  else if key = "" then ⟨.error missingKeyError, st, [], 0⟩
  else
    let st' :=
      match st.cache with
      | none => st
      | some c =>
        if value.truthy then { st with cache := some (cacheSetItem c key value cacheKey) }
        else { st with cache := some (cacheRemoveItem c key cacheKey) }
    ⟨.ok value, st', [⟨key, value, cacheKey⟩], 0⟩

/-- `getItem(key, cacheKey?, fallback?)`: gated on initialization; read the
resolved store; a falsy read invokes `fallback` (modelled by its resolved
value) and returns `cacheItem(key, data, cacheKey)`; a truthy read is
returned silently. -/
def getItem (key : String) (cacheKey : Option String) (fallback : Val)
    (st : ADIState) : Out Val :=
  if !st.initialized then ⟨.error notInitializedError, st, [], 0⟩
  else
    let data := readCache st key cacheKey
    if !data.truthy then
      let o := cacheItem key fallback cacheKey st
      ⟨o.result, o.state, o.notifs, 1⟩
    else ⟨.ok data, st, [], 0⟩

/-- `publishItem(key, cacheKey?, fallback?)`: gated on initialization, then
`getItem` followed by `notifyAll(key, data, cacheKey)` (skipped if `getItem`
threw); the source returns `undefined`. -/
def publishItem (key : String) (cacheKey : Option String) (fallback : Val)
    (st : ADIState) : Out Val :=
  if !st.initialized then ⟨.error notInitializedError, st, [], 0⟩
  else
    let o := getItem key cacheKey fallback st
    match o.result with
    | .error e => ⟨.error e, o.state, o.notifs, o.fallbackCalls⟩
    | .ok data =>
      ⟨.ok Val.vnull, o.state, o.notifs ++ [⟨key, data, cacheKey⟩], o.fallbackCalls⟩

/-- `cache?.listItems(opts)`: optional chaining yields `undefined` when the
adapter reference is null. -/
def listCache (st : ADIState) (opts : ListQueryOpts) : Val :=
  match st.cache with
  | none => Val.vnull
  | some c => cacheListItems c opts

/-- `listItems(opts, fallback?)`: gated on initialization; a falsy
`opts.cacheKey` returns `[]`; else
`(await cache?.listItems(opts)) || (await fallback())`. Never notifies. -/
def listItems (opts : ListQueryOpts) (fallback : Val) (st : ADIState) :
    Out Val :=
  if !st.initialized then ⟨.error notInitializedError, st, [], 0⟩
  else if falsyKey opts.cacheKey then ⟨.ok (Val.varr []), st, [], 0⟩
  else
    let fromCache := listCache st opts
    if fromCache.truthy then ⟨.ok fromCache, st, [], 0⟩
    else ⟨.ok fallback, st, [], 1⟩

/-- `publishItems(opts, fallback?)`: `listItems` (whose initialization gate
propagates) followed by `notifyAll("all", data, opts.cacheKey)`; the source
returns `undefined`. -/
def publishItems (opts : ListQueryOpts) (fallback : Val) (st : ADIState) :
    Out Val :=
  let o := listItems opts fallback st
  match o.result with
  | .error e => ⟨.error e, o.state, o.notifs, o.fallbackCalls⟩
  | .ok data =>
    ⟨.ok Val.vnull, o.state, o.notifs ++ [⟨"all", data, opts.cacheKey⟩], o.fallbackCalls⟩

/-- `removeItem(key, cacheKey?)`: gated on initialization, then
`cache?.removeItem(key, cacheKey)` and `notifyAll(key, null, cacheKey)`;
the source returns `undefined`. -/
def removeItem (key : String) (cacheKey : Option String) (st : ADIState) :
    Out Val :=
  if !st.initialized then ⟨.error notInitializedError, st, [], 0⟩
  else
    let st' :=
      match st.cache with
      | none => st
      | some c => { st with cache := some (cacheRemoveItem c key cacheKey) }
    ⟨.ok Val.vnull, st', [⟨key, Val.vnull, cacheKey⟩], 0⟩

/-- A batch entry of `cacheMultiple`. -/
structure CacheItemArgs where
  key : String
  value : Val
  cacheKey : Option String

/-- The `items.forEach(... cacheItem ...)` loop: a thrown error stops the
iteration, keeping the writes and notifications already performed. -/
def cacheMultipleLoop : List CacheItemArgs → ADIState → List Notification →
    Out Unit
  | [], st, acc => ⟨.ok (), st, acc, 0⟩
  | i :: rest, st, acc =>
    let o := cacheItem i.key i.value i.cacheKey st
    match o.result with
    | .error e => ⟨.error e, o.state, acc ++ o.notifs, 0⟩
    | .ok _ => cacheMultipleLoop rest o.state (acc ++ o.notifs)

/-- `cacheMultiple(items)`: gated on initialization; an empty batch is a
no-op; otherwise each entry goes through `cacheItem`. -/
def cacheMultiple (items : List CacheItemArgs) (st : ADIState) : Out Unit :=
  if !st.initialized then ⟨.error notInitializedError, st, [], 0⟩
  else if items.isEmpty then ⟨.ok (), st, [], 0⟩
  else cacheMultipleLoop items st []

/-- Whether a registry entry is the plain listener with the given identity
(`subscribers.includes(listener)` — the filter closures of
`subscribeToCaches` never compare equal to a raw listener). -/
def isGlobalId (lid : Nat) : Subscriber → Bool
  | .global i => i == lid
  | .scoped _ _ _ => false

/-- `subscribe(listener)`: a non-callable listener (modelled by `none`)
throws; a duplicate registration is a no-op; else the listener is pushed.
The returned unsubscriber is not modelled. -/
def subscribe (listener : Option Nat) (st : ADIState) : Out Unit :=
  match listener with
  | none => ⟨.error invalidSubscriberError, st, [], 0⟩
  | some lid =>
    if st.subscribers.any (isGlobalId lid) then ⟨.ok (), st, [], 0⟩
    else ⟨.ok (), { st with subscribers := st.subscribers ++ [.global lid] }, [], 0⟩

/-- `subscribeToCaches(listener, caches, withinBounds?)`: a non-callable
listener throws, an empty cache list throws; else the wrapping filter is
pushed onto the registry. -/
def subscribeToCaches (listener : Option Nat) (caches : List String)
    (withinBounds : String → Val → Option String → Bool) (st : ADIState) :
    Out Unit :=
  match listener with
  | none => ⟨.error invalidSubscriberError, st, [], 0⟩
  | some lid =>
    if caches.isEmpty then ⟨.error emptyScopeError, st, [], 0⟩
    else
      ⟨.ok (), { st with subscribers := st.subscribers ++ [.scoped lid caches withinBounds] },
        [], 0⟩

/-- The store an operation with this `cacheKey` resolves to: the default
store for a falsy name, else the named db (if present). -/
def resolvedStore (c : CacheState) : Option String → Option Store
  | none => some c.localStore
  | some s => if s.isEmpty then some c.localStore else alistGet c.dbs s

/-- The binding of `key` in the resolved store of a state (absent when
uninitialized, when the named db is missing, or when unbound). -/
def resolvedLookup (st : ADIState) (key : String) (cacheKey : Option String) :
    Option Val :=
  match st.cache with
  | none => none
  | some c =>
    match resolvedStore c cacheKey with
    | none => none
    | some store => alistGet store key

/-- A backend value as supplied in the cache map handed to
`createDataCacheAPI`: its enumerable property names (with whether each is a
callable) for validation, and its item store for the adapter. -/
structure BackendDecl where
  methods : List (String × Bool)
  items : Store

/-- The cache map argument of `createDataCacheAPI`. -/
abbrev CacheMapDecl := List (String × BackendDecl)

/-- The required capability names of `validateCacheInterface`. -/
def requiredMethods : List String := ["listItems", "getItem", "putItem", "removeItem"]

/-- `validateCacheInterface(db, n)`: throws when the db exposes no
properties at all, else folds over the required names, requiring each to be
present and callable. -/
def validateCacheInterface (db : BackendDecl) (n : String) : Except String Bool :=
  if db.methods.isEmpty then
    .error ("Invalid ADI interface: DB \"" ++ n ++ "\" has no methods")
  else
    .ok (requiredMethods.foldl
      (fun v fn => v && ((alistGet db.methods fn).getD false)) true)

/-- The `dbNames.reduce` inside `validateCacheMap`: threads the running
`valid` flag (skipping further checks once false) and the `invalidAt` name,
propagating the inner throw of `validateCacheInterface`. -/
def validateFold : CacheMapDecl → Bool → String → Except String (Bool × String)
  | [], valid, invalidAt => .ok (valid, invalidAt)
  | (dbName, db) :: rest, valid, invalidAt =>
    if !valid then validateFold rest valid invalidAt
    else
      match validateCacheInterface db dbName with
      | .error e => .error e
      | .ok validDB =>
        validateFold rest validDB (if validDB then invalidAt else dbName)

/-- `validateCacheMap(cacheMap)`: the reduce starts from
`Object.keys(cacheMap).length > 0`; when the folded flag is false, throws the
configuration error naming `invalidAt` (the initial empty string when the map
itself is empty). -/
def validateCacheMap (cacheMap : CacheMapDecl) : Except String Bool :=
  match validateFold cacheMap (decide (0 < cacheMap.length)) "" with
  | .error e => .error e
  | .ok (valid, invalidAt) =>
    if valid then .ok valid
    else .error ("Invalid ADI interface for CacheMap DB \"" ++ invalidAt ++ "\"")

/-- `createDataCacheAPI(cacheMap)` runs `validateCacheMap` at construction;
the returned API object itself is the ADI module and is not re-modelled. -/
def createDataCacheAPI (cacheMap : CacheMapDecl) : Except String Unit :=
  match validateCacheMap cacheMap with
  | .error e => .error e
  | .ok _ => .ok ()

/-- The adapter state `createCacheInterface(cacheMap)` constructs: a fresh
default store plus the named backends. -/
def mkCacheState (cacheMap : CacheMapDecl) : CacheState :=
  ⟨[], cacheMap.map (fun p => (p.1, p.2.items))⟩

/-- The API object's `onApplicationStart()`: re-validates the cache map and
then starts the ADI over the adapter built from it. -/
def apiOnApplicationStart (cacheMap : CacheMapDecl) (st : ADIState) :
    Except String ADIState :=
  match validateCacheMap cacheMap with
  | .error e => .error e
  | .ok _ => .ok (onApplicationStart (mkCacheState cacheMap) st)

/-- The orchestrator state invariant of the spec's data model. -/
def StateInv (st : ADIState) : Prop := st.cache.isSome = st.initialized

/-- An initialized state over an empty adapter, used as a concrete witness
state. -/
def stInit : ADIState := ⟨true, some ⟨[], []⟩, []⟩

/-- An initialized state whose default store binds `"k"`, used as a concrete
witness state. -/
def stOne : ADIState := ⟨true, some ⟨[("k", Val.vstr "v")], []⟩, []⟩

/-! ### Association-list lemmas -/

theorem alistGet_put {α : Type} (l : List (String × α)) (key : String)
    (v : α) : alistGet (alistPut l key v) key = some v := by
  simp [alistGet, alistPut]

theorem alistGet_del {α : Type} (l : List (String × α)) (key : String) :
    alistGet (alistDel l key) key = none := by
  induction l with
  | nil => rfl
  | cons p rest ih =>
    by_cases h : p.1 = key
    · simpa [alistDel, h] using ih
    · simpa [alistDel, alistGet, h] using ih

theorem alistGet_replace {α : Type} (l : List (String × α)) (key : String)
    (new : α) (h : (alistGet l key).isSome) :
    alistGet (alistReplace l key new) key = some new := by
  induction l with
  | nil => simp [alistGet] at h
  | cons p rest ih =>
    obtain ⟨k, v⟩ := p
    by_cases hk : k = key
    · simp [alistReplace, alistGet, hk]
    · simp only [alistGet, hk, if_false] at h
      simp [alistReplace, alistGet, hk, ih h]

/-! ### Resolved-store lemmas for the cache adapter -/

theorem resolvedStore_set (c : CacheState) (key : String) (v : Val)
    (ck : Option String) (s : Store) (h : resolvedStore c ck = some s) :
    resolvedStore (cacheSetItem c key v ck) ck = some (alistPut s key v) := by
  cases ck with
  | none =>
    simp [resolvedStore] at h
    subst h
    simp [resolvedStore, cacheSetItem]
  | some name =>
    cases he : name.isEmpty with
    | true =>
      simp [resolvedStore, he] at h
      subst h
      simp [resolvedStore, cacheSetItem, he]
    | false =>
      simp [resolvedStore, he] at h
      have hrep := alistGet_replace c.dbs name (alistPut s key v) (by simp [h])
      simp [cacheSetItem, resolvedStore, he, h, hrep]

theorem alistGet_remove_resolved (c : CacheState) (key : String)
    (ck : Option String) (s' : Store)
    (h : resolvedStore (cacheRemoveItem c key ck) ck = some s') :
    alistGet s' key = none := by
  cases ck with
  | none =>
    simp [resolvedStore, cacheRemoveItem] at h
    subst h
    exact alistGet_del c.localStore key
  | some name =>
    cases he : name.isEmpty with
    | true =>
      simp [resolvedStore, cacheRemoveItem, he] at h
      subst h
      exact alistGet_del c.localStore key
    | false =>
      cases hdb : alistGet c.dbs name with
      | none => simp [cacheRemoveItem, resolvedStore, he, hdb] at h
      | some db =>
        have hrep := alistGet_replace c.dbs name (alistDel db key) (by simp [hdb])
        simp [cacheRemoveItem, resolvedStore, he, hdb, hrep] at h
        subst h
        exact alistGet_del db key

/-! ### Preservation of the adapter/initialized invariant -/

theorem inv_onApplicationStart (config : CacheState) (st : ADIState)
    (h : StateInv st) : StateInv (onApplicationStart config st) := by
  unfold onApplicationStart isInitialized
  split
  · exact h
  · simp [StateInv]

theorem inv_onApplicationEnd (st : ADIState) :
    StateInv (onApplicationEnd st) := by
  simp [StateInv, onApplicationEnd]

theorem inv_cacheItem (k : String) (v : Val) (ck : Option String)
    (st : ADIState) (h : StateInv st) : StateInv (cacheItem k v ck st).state := by
  unfold cacheItem
  cases hi : st.initialized with
  | false => simpa [hi] using h
  | true =>
    by_cases hk : k = ""
    · simpa [hi, hk] using h
    · cases hc : st.cache with
      | none => simpa [hi, hk, hc] using h
      | some c =>
        cases hv : v.truthy with
        | true => simp [hi, hk, hc, hv, StateInv]
        | false => simp [hi, hk, hc, hv, StateInv]

theorem inv_getItem (k : String) (ck : Option String) (fb : Val)
    (st : ADIState) (h : StateInv st) : StateInv (getItem k ck fb st).state := by
  unfold getItem
  cases hi : st.initialized with
  | false => simpa [hi] using h
  | true =>
    cases ht : (readCache st k ck).truthy with
    | false => simpa [hi, ht] using inv_cacheItem k fb ck st h
    | true => simpa [hi, ht] using h

theorem inv_publishItem (k : String) (ck : Option String) (fb : Val)
    (st : ADIState) (h : StateInv st) : StateInv (publishItem k ck fb st).state := by
  unfold publishItem
  cases hi : st.initialized with
  | false => simpa [hi] using h
  | true =>
    cases hr : (getItem k ck fb st).result with
    | error e => simpa [hi, hr] using inv_getItem k ck fb st h
    | ok d => simpa [hi, hr] using inv_getItem k ck fb st h

theorem inv_listItems (opts : ListQueryOpts) (fb : Val) (st : ADIState)
    (h : StateInv st) : StateInv (listItems opts fb st).state := by
  unfold listItems
  cases hi : st.initialized with
  | false => simpa [hi] using h
  | true =>
    cases hk : falsyKey opts.cacheKey with
    | true => simpa [hi, hk] using h
    | false =>
      cases ht : (listCache st opts).truthy with
      | true => simpa [hi, hk, ht] using h
      | false => simpa [hi, hk, ht] using h

theorem inv_publishItems (opts : ListQueryOpts) (fb : Val) (st : ADIState)
    (h : StateInv st) : StateInv (publishItems opts fb st).state := by
  unfold publishItems
  cases hr : (listItems opts fb st).result with
  | error e => simpa [hr] using inv_listItems opts fb st h
  | ok d => simpa [hr] using inv_listItems opts fb st h

theorem inv_removeItem (k : String) (ck : Option String) (st : ADIState)
    (h : StateInv st) : StateInv (removeItem k ck st).state := by
  unfold removeItem
  cases hi : st.initialized with
  | false => simpa [hi] using h
  | true =>
    cases hc : st.cache with
    | none => simpa [hi, hc] using h
    | some c => simp [hi, hc, StateInv]

theorem inv_cacheMultipleLoop (items : List CacheItemArgs) :
    ∀ (st : ADIState) (acc : List Notification), StateInv st →
      StateInv (cacheMultipleLoop items st acc).state := by
  induction items with
  | nil => intro st acc h; simpa [cacheMultipleLoop] using h
  | cons i rest ih =>
    intro st acc h
    unfold cacheMultipleLoop
    cases hr : (cacheItem i.key i.value i.cacheKey st).result with
    | error e => simpa [hr] using inv_cacheItem i.key i.value i.cacheKey st h
    | ok u => simpa [hr] using ih _ _ (inv_cacheItem i.key i.value i.cacheKey st h)

theorem inv_cacheMultiple (items : List CacheItemArgs) (st : ADIState)
    (h : StateInv st) : StateInv (cacheMultiple items st).state := by
  unfold cacheMultiple
  cases hi : st.initialized with
  | false => simpa [hi] using h
  | true =>
    cases hemp : items.isEmpty with
    | true => simpa [hi, hemp] using h
    | false => simpa [hi, hemp] using inv_cacheMultipleLoop items st [] h

theorem inv_subscribe (listener : Option Nat) (st : ADIState)
    (h : StateInv st) : StateInv (subscribe listener st).state := by
  unfold subscribe
  cases listener with
  | none => simpa using h
  | some lid =>
    cases hd : st.subscribers.any (isGlobalId lid) with
    | true => simpa [hd] using h
    | false => simpa [hd] using h

theorem inv_subscribeToCaches (listener : Option Nat) (cs : List String)
    (wb : String → Val → Option String → Bool) (st : ADIState)
    (h : StateInv st) : StateInv (subscribeToCaches listener cs wb st).state := by
  unfold subscribeToCaches
  cases listener with
  | none => simpa using h
  | some lid =>
    cases hemp : cs.isEmpty with
    | true => simpa [hemp] using h
    | false => simpa [hemp] using h

/-! ### Fan-out lemmas -/

theorem notifyCalls_append (a b : List Subscriber) (n : Notification) :
    notifyCalls (a ++ b) n = notifyCalls a n ++ notifyCalls b n := by
  simp [notifyCalls, List.filter_append]

theorem notifyCalls_scoped_single (lid : Nat) (caches : List String)
    (wb : String → Val → Option String → Bool) (n : Notification) :
    notifyCalls [.scoped lid caches wb] n =
      if jsIncludes caches n.cacheKey && wb n.key n.value n.cacheKey
      then [lid] else [] := by
  cases hf : jsIncludes caches n.cacheKey && wb n.key n.value n.cacheKey with
  | true => simp [notifyCalls, List.filter, Subscriber.fires, hf, Subscriber.sid]
  | false => simp [notifyCalls, List.filter, Subscriber.fires, hf]

/-- When initialized, `listItems` succeeds with unchanged state and no
notification. -/
theorem listItems_ok (opts : ListQueryOpts) (fb : Val) (st : ADIState)
    (h : st.initialized = true) :
    ∃ d, (listItems opts fb st).result = .ok d ∧
      (listItems opts fb st).notifs = [] := by
  unfold listItems
  cases hk : falsyKey opts.cacheKey with
  | true => exact ⟨Val.varr [], by simp [h, hk], by simp [h, hk]⟩
  | false =>
    cases ht : (listCache st opts).truthy with
    | true => exact ⟨listCache st opts, by simp [h, hk, ht], by simp [h, hk, ht]⟩
    | false => exact ⟨fb, by simp [h, hk, ht], by simp [h, hk, ht]⟩

/-! ### Claim theorems -/

/-- C1 (amended, non-empty key): when initialized and the key is non-empty,
`getItem` first reads the resolved store; a falsy read invokes the fallback
exactly once, writes its result through the `cacheItem` write path — emitting
exactly one notification `(key, fallback, storeName)` — and returns that
value; a truthy read is returned with no notification and no fallback call. -/
theorem getItem_fetch_or_fallback (key : String) (cacheKey : Option String)
    (fb : Val) (st : ADIState) (hinit : st.initialized = true)
    (hkey : key ≠ "") :
    ((readCache st key cacheKey).truthy = false →
      (getItem key cacheKey fb st).fallbackCalls = 1 ∧
      (getItem key cacheKey fb st).notifs = [⟨key, fb, cacheKey⟩] ∧
      (getItem key cacheKey fb st).result = .ok fb ∧
      (getItem key cacheKey fb st).state = (cacheItem key fb cacheKey st).state) ∧
    ((readCache st key cacheKey).truthy = true →
      (getItem key cacheKey fb st).result = .ok (readCache st key cacheKey) ∧
      (getItem key cacheKey fb st).notifs = [] ∧
      (getItem key cacheKey fb st).fallbackCalls = 0 ∧
      (getItem key cacheKey fb st).state = st) := by
  constructor
  · intro hmiss
    refine ⟨?_, ?_, ?_, ?_⟩ <;> simp [getItem, cacheItem, hinit, hkey, hmiss]
  · intro hhit
    refine ⟨?_, ?_, ?_, ?_⟩ <;> simp [getItem, hinit, hhit]

/-- C1 (counterexample to the claim as stated): at the empty key, an
initialized empty store and the default fallback, the read misses but the
write path throws the missing-key error instead of notifying once and
returning the fallback value. -/
theorem getItem_empty_key_no_notification :
    readCache stInit "" none = Val.vnull ∧
    (getItem "" none Val.vnull stInit).notifs = [] ∧
    (getItem "" none Val.vnull stInit).result = .error missingKeyError :=
  ⟨rfl, rfl, rfl⟩

/-- C1 (witness): a concrete miss over the initialized empty state with a
non-empty key notifies once with the fallback value. -/
theorem getItem_fetch_or_fallback_witness :
    (readCache stInit "k" none).truthy = false ∧
    (getItem "k" none (Val.vstr "x") stInit).notifs = [⟨"k", Val.vstr "x", none⟩] :=
  ⟨rfl,
    ((getItem_fetch_or_fallback "k" none (Val.vstr "x") stInit rfl
      (by decide)).1 rfl).2.1⟩

/-- C2 (amended): `listItems` never notifies; when initialized,
`publishItems` emits exactly one notification with key `"all"` and
`storeName = opts.cacheKey` — including when `opts.cacheKey` is
absent/empty, i.e. also for the default fallback store. -/
theorem listItems_silent_publishItems_all :
    (∀ opts fb st, (listItems opts fb st).notifs = []) ∧
    (∀ opts fb (st : ADIState), st.initialized = true →
      ∃ d, (publishItems opts fb st).notifs = [⟨"all", d, opts.cacheKey⟩]) := by
  constructor
  · intro opts fb st
    unfold listItems
    cases hi : st.initialized with
    | false => simp [hi]
    | true =>
      cases hk : falsyKey opts.cacheKey with
      | true => simp [hi, hk]
      | false =>
        cases ht : (listCache st opts).truthy with
        | true => simp [hi, hk, ht]
        | false => simp [hi, hk, ht]
  · intro opts fb st h
    obtain ⟨d, hd, hn⟩ := listItems_ok opts fb st h
    exact ⟨d, by simp [publishItems, hd, hn]⟩

/-- C2 (counterexample to the claim as stated): over an initialized state,
`publishItems` with an absent store name still emits the `"all"`
notification, keyed to the default fallback store. -/
theorem publishItems_default_store_notifies :
    (publishItems ⟨none, none, none, none⟩ (Val.varr []) stInit).notifs =
      [⟨"all", Val.varr [], none⟩] := rfl

/-- C2 (witness): over an initialized state and a named store, `publishItems`
emits exactly one `"all"` notification keyed to that store. -/
theorem listItems_silent_publishItems_all_witness :
    stInit.initialized = true ∧
    ∃ d, (publishItems ⟨some "users", none, none, none⟩ (Val.varr []) stInit).notifs
      = [⟨"all", d, some "users"⟩] :=
  ⟨rfl, listItems_silent_publishItems_all.2 ⟨some "users", none, none, none⟩
    (Val.varr []) stInit rfl⟩

/-- C3 (amended, removal on any falsy value): when initialized with a
non-empty key, `cacheItem` removes `key` from the resolved store when `value`
is falsy (null/undefined-equivalent or any other falsy value such as the
empty string) and otherwise writes `key→value` to the resolved store; in both
cases it emits exactly one notification `(key, value, storeName)` and returns
`value`. -/
theorem cacheItem_write_remove_notify (key : String) (value : Val)
    (cacheKey : Option String) (st : ADIState) (c : CacheState)
    (hinit : st.initialized = true) (hkey : key ≠ "") (hc : st.cache = some c) :
    (cacheItem key value cacheKey st).result = .ok value ∧
    (cacheItem key value cacheKey st).notifs = [⟨key, value, cacheKey⟩] ∧
    (cacheItem key value cacheKey st).state.cache =
      some (if value.truthy then cacheSetItem c key value cacheKey
            else cacheRemoveItem c key cacheKey) ∧
    (value.truthy = false →
      resolvedLookup (cacheItem key value cacheKey st).state key cacheKey = none) ∧
    (value.truthy = true → ∀ s, resolvedStore c cacheKey = some s →
      resolvedLookup (cacheItem key value cacheKey st).state key cacheKey
        = some value) := by
  refine ⟨by simp [cacheItem, hinit, hkey], by simp [cacheItem, hinit, hkey],
    ?_, ?_, ?_⟩
  · cases hv : value.truthy with
    | true => simp [cacheItem, hinit, hkey, hc, hv]
    | false => simp [cacheItem, hinit, hkey, hc, hv]
  · intro hv
    have hcache : (cacheItem key value cacheKey st).state.cache =
        some (cacheRemoveItem c key cacheKey) := by
      simp [cacheItem, hinit, hkey, hc, hv]
    unfold resolvedLookup
    simp only [hcache]
    cases hr : resolvedStore (cacheRemoveItem c key cacheKey) cacheKey with
    | none => simp [hr]
    | some s' => simp [hr, alistGet_remove_resolved c key cacheKey s' hr]
  · intro hv s hs
    have hcache : (cacheItem key value cacheKey st).state.cache =
        some (cacheSetItem c key value cacheKey) := by
      simp [cacheItem, hinit, hkey, hc, hv]
    have hset := resolvedStore_set c key value cacheKey s hs
    simp [resolvedLookup, hcache, hset, alistGet_put]

/-- C3 (counterexample to the claim as stated): the empty string is a present
value (not null/undefined-equivalent), yet `cacheItem` takes the removal
branch on it: the previously bound key is gone from the resolved store
afterwards instead of being bound to the empty string. -/
theorem cacheItem_empty_string_removes :
    Val.vstr "" ≠ Val.vnull ∧
    resolvedLookup stOne "k" none = some (Val.vstr "v") ∧
    resolvedLookup (cacheItem "k" (Val.vstr "") none stOne).state "k" none = none :=
  ⟨fun h => Val.noConfusion h, rfl, rfl⟩

/-- C3 (witness): a concrete truthy write over the initialized empty state
notifies once with `(key, value, storeName)`. -/
theorem cacheItem_write_remove_notify_witness :
    (cacheItem "k" (Val.vstr "x") none stInit).notifs =
      [⟨"k", Val.vstr "x", none⟩] :=
  (cacheItem_write_remove_notify "k" (Val.vstr "x") none stInit ⟨[], []⟩
    rfl (by decide) rfl).2.1

/-- C4: every gated operation (`cacheItem`, `cacheMultiple`, `getItem`,
`listItems`, `publishItem`, `publishItems`, `removeItem`) called on an
uninitialized state fails with the not-initialized error for all arguments —
hence before any other argument validation — leaving the state unchanged and
emitting no notification. -/
theorem notInitialized_gate (st : ADIState) (h : st.initialized = false) :
    (∀ k v ck, cacheItem k v ck st = ⟨.error notInitializedError, st, [], 0⟩) ∧
    (∀ items, cacheMultiple items st = ⟨.error notInitializedError, st, [], 0⟩) ∧
    (∀ k ck fb, getItem k ck fb st = ⟨.error notInitializedError, st, [], 0⟩) ∧
    (∀ opts fb, listItems opts fb st = ⟨.error notInitializedError, st, [], 0⟩) ∧
    (∀ k ck fb, publishItem k ck fb st = ⟨.error notInitializedError, st, [], 0⟩) ∧
    (∀ opts fb, publishItems opts fb st = ⟨.error notInitializedError, st, [], 0⟩) ∧
    (∀ k ck, removeItem k ck st = ⟨.error notInitializedError, st, [], 0⟩) := by
  refine ⟨?_, ?_, ?_, ?_, ?_, ?_, ?_⟩ <;> intros <;>
    simp [cacheItem, cacheMultiple, getItem, listItems, publishItem,
      publishItems, removeItem, h]

/-- C4 (witness): `cacheItem` on the pristine state fails with the
not-initialized error even though its key argument is empty (the
missing-key check never fires). -/
theorem notInitialized_gate_witness :
    cacheItem "" (Val.vstr "123") none initialState =
      ⟨.error notInitializedError, initialState, [], 0⟩ :=
  (notInitialized_gate initialState rfl).1 "" (Val.vstr "123") none

/-- C5 (amended, non-empty key): when initialized over the default fallback
store, for a non-empty key and a truthy value, `cacheItem(key, v)` followed
by `getItem(key)` with the default fallback returns `v`, and the `getItem`
call emits no notification and invokes no fallback. -/
theorem cacheItem_then_getItem (key : String) (v : Val) (st : ADIState)
    (c : CacheState) (hinit : st.initialized = true) (hkey : key ≠ "")
    (hv : v.truthy = true) (hc : st.cache = some c) :
    (getItem key none Val.vnull (cacheItem key v none st).state).result = .ok v ∧
    (getItem key none Val.vnull (cacheItem key v none st).state).notifs = [] ∧
    (getItem key none Val.vnull (cacheItem key v none st).state).fallbackCalls = 0 := by
  have hstate : (cacheItem key v none st).state =
      { initialized := true, cache := some (cacheSetItem c key v none),
        subscribers := st.subscribers } := by
    simp [cacheItem, hinit, hkey, hc, hv]
  have hread : readCache
      { initialized := true, cache := some (cacheSetItem c key v none),
        subscribers := st.subscribers } key none = v := by
    simp [readCache, cacheGetItem, cacheSetItem, localGet, alistGet_put, hv]
  refine ⟨?_, ?_, ?_⟩ <;> simp [getItem, hstate, hread, hv]

/-- C5 (counterexample to the claim as stated): at the empty key the write
itself fails with the missing-key error and the subsequent `getItem` fails
the same way instead of returning the written value. -/
theorem cacheItem_then_getItem_empty_key :
    (cacheItem "" (Val.vstr "x") none stInit).result = .error missingKeyError ∧
    (getItem "" none Val.vnull (cacheItem "" (Val.vstr "x") none stInit).state).result
      = .error missingKeyError :=
  ⟨rfl, rfl⟩

/-- C5 (witness): the concrete round trip on key `"k"` and value `"x"` over
the initialized empty state. -/
theorem cacheItem_then_getItem_witness :
    (getItem "k" none Val.vnull (cacheItem "k" (Val.vstr "x") none stInit).state).result
        = .ok (Val.vstr "x") ∧
    (getItem "k" none Val.vnull (cacheItem "k" (Val.vstr "x") none stInit).state).notifs
        = [] :=
  ⟨(cacheItem_then_getItem "k" (Val.vstr "x") stInit ⟨[], []⟩ rfl (by decide)
      rfl rfl).1,
   (cacheItem_then_getItem "k" (Val.vstr "x") stInit ⟨[], []⟩ rfl (by decide)
      rfl rfl).2.1⟩

/-- C6: the filter registered by `subscribeToCaches` invokes its listener on
a fan-out event exactly when the event's store name is a member of the
subscribed store names and the predicate holds; in particular never when the
store name is absent. The rest of the registry is unaffected. -/
theorem subscribeToCaches_filter (lid : Nat) (caches : List String)
    (wb : String → Val → Option String → Bool) (st : ADIState)
    (h : caches ≠ []) :
    (subscribeToCaches (some lid) caches wb st).result = .ok () ∧
    ∀ n : Notification,
      (notifyCalls (subscribeToCaches (some lid) caches wb st).state.subscribers n =
        notifyCalls st.subscribers n ++
          (if jsIncludes caches n.cacheKey && wb n.key n.value n.cacheKey
           then [lid] else [])) ∧
      (n.cacheKey = none →
        notifyCalls (subscribeToCaches (some lid) caches wb st).state.subscribers n =
          notifyCalls st.subscribers n) := by
  have hemp : caches.isEmpty = false := by
    cases caches with
    | nil => exact absurd rfl h
    | cons a t => rfl
  have hsubs : (subscribeToCaches (some lid) caches wb st).state.subscribers =
      st.subscribers ++ [.scoped lid caches wb] := by
    simp [subscribeToCaches, hemp]
  refine ⟨by simp [subscribeToCaches, hemp], ?_⟩
  intro n
  constructor
  · rw [hsubs, notifyCalls_append, notifyCalls_scoped_single]
  · intro hn
    rw [hsubs, notifyCalls_append, notifyCalls_scoped_single]
    simp [jsIncludes, hn]

/-- C6 (witness): a listener scoped to `["users"]` with the default predicate
fires on a `"users"` notification and stays silent on an `"items"` one and on
one with no store name. -/
theorem subscribeToCaches_filter_witness :
    (["users"] : List String) ≠ [] ∧
    notifyCalls (subscribeToCaches (some 7) ["users"] defaultBounds stInit).state.subscribers
      ⟨"u1", Val.vstr "v", some "users"⟩ = [7] ∧
    notifyCalls (subscribeToCaches (some 7) ["users"] defaultBounds stInit).state.subscribers
      ⟨"u1", Val.vstr "v", some "items"⟩ = [] ∧
    notifyCalls (subscribeToCaches (some 7) ["users"] defaultBounds stInit).state.subscribers
      ⟨"u1", Val.vstr "v", none⟩ = [] := by
  refine ⟨by decide, ?_, ?_, ?_⟩
  · exact (((subscribeToCaches_filter 7 ["users"] defaultBounds stInit
      (by decide)).2 ⟨"u1", Val.vstr "v", some "users"⟩).1).trans rfl
  · exact (((subscribeToCaches_filter 7 ["users"] defaultBounds stInit
      (by decide)).2 ⟨"u1", Val.vstr "v", some "items"⟩).1).trans rfl
  · exact ((subscribeToCaches_filter 7 ["users"] defaultBounds stInit
      (by decide)).2 ⟨"u1", Val.vstr "v", none⟩).2 rfl

/-- C7: when initialized, `removeItem(key, s)` removes `key` from the
resolved store and emits exactly one notification whose value is null and
whose store name is `s`, for every key and every store name (including the
default store and names without a backing db). -/
theorem removeItem_notifies_null (key : String) (s : Option String)
    (st : ADIState) (c : CacheState) (hinit : st.initialized = true)
    (hc : st.cache = some c) :
    (removeItem key s st).result = .ok Val.vnull ∧
    (removeItem key s st).notifs = [⟨key, Val.vnull, s⟩] ∧
    resolvedLookup (removeItem key s st).state key s = none := by
  have hcache : (removeItem key s st).state.cache =
      some (cacheRemoveItem c key s) := by
    simp [removeItem, hinit, hc]
  refine ⟨by simp [removeItem, hinit], by simp [removeItem, hinit], ?_⟩
  unfold resolvedLookup
  simp only [hcache]
  cases hr : resolvedStore (cacheRemoveItem c key s) s with
  | none => simp [hr]
  | some s' => simp [hr, alistGet_remove_resolved c key s s' hr]

/-- C7 (witness): removing the bound key `"k"` from the default store of a
concrete initialized state notifies `("k", null, none)` and unbinds it. -/
theorem removeItem_notifies_null_witness :
    (removeItem "k" none stOne).notifs = [⟨"k", Val.vnull, none⟩] ∧
    resolvedLookup (removeItem "k" none stOne).state "k" none = none :=
  ⟨(removeItem_notifies_null "k" none stOne ⟨[("k", Val.vstr "v")], []⟩
      rfl rfl).2.1,
   (removeItem_notifies_null "k" none stOne ⟨[("k", Val.vstr "v")], []⟩
      rfl rfl).2.2⟩

/-- C8: the invariant "the adapter is non-null iff initialized" holds in the
pristine state and is preserved by every operation, in particular by
`onApplicationStart` (which sets both) and `onApplicationEnd` (which clears
both). -/
theorem stateInv_preserved :
    StateInv initialState ∧
    (∀ config st, StateInv st → StateInv (onApplicationStart config st)) ∧
    (∀ st, StateInv (onApplicationEnd st)) ∧
    (∀ k v ck st, StateInv st → StateInv (cacheItem k v ck st).state) ∧
    (∀ items st, StateInv st → StateInv (cacheMultiple items st).state) ∧
    (∀ k ck fb st, StateInv st → StateInv (getItem k ck fb st).state) ∧
    (∀ opts fb st, StateInv st → StateInv (listItems opts fb st).state) ∧
    (∀ k ck fb st, StateInv st → StateInv (publishItem k ck fb st).state) ∧
    (∀ opts fb st, StateInv st → StateInv (publishItems opts fb st).state) ∧
    (∀ k ck st, StateInv st → StateInv (removeItem k ck st).state) ∧
    (∀ l st, StateInv st → StateInv (subscribe l st).state) ∧
    (∀ l cs wb st, StateInv st → StateInv (subscribeToCaches l cs wb st).state) :=
  ⟨rfl, inv_onApplicationStart, inv_onApplicationEnd,
   fun k v ck st => inv_cacheItem k v ck st,
   fun items st => inv_cacheMultiple items st,
   fun k ck fb st => inv_getItem k ck fb st,
   fun opts fb st => inv_listItems opts fb st,
   fun k ck fb st => inv_publishItem k ck fb st,
   fun opts fb st => inv_publishItems opts fb st,
   fun k ck st => inv_removeItem k ck st,
   fun l st => inv_subscribe l st,
   fun l cs wb st => inv_subscribeToCaches l cs wb st⟩

/-- C8 (witness): the invariant transported through a concrete start from
the pristine state. -/
theorem stateInv_preserved_witness :
    StateInv (onApplicationStart ⟨[], []⟩ initialState) :=
  stateInv_preserved.2.1 ⟨[], []⟩ initialState stateInv_preserved.1

/-- C9: `onApplicationEnd` clears the adapter reference and the initialized
flag but leaves the subscriber registry unchanged; after a subsequent
`onApplicationStart` the prior subscribers are still registered and receive
exactly the notifications they would have before, with no re-subscription. -/
theorem end_preserves_subscribers (st : ADIState) (config : CacheState) :
    (onApplicationEnd st).cache = none ∧
    (onApplicationEnd st).initialized = false ∧
    (onApplicationEnd st).subscribers = st.subscribers ∧
    (onApplicationStart config (onApplicationEnd st)).subscribers = st.subscribers ∧
    ∀ n, notifyCalls (onApplicationStart config (onApplicationEnd st)).subscribers n
        = notifyCalls st.subscribers n := by
  refine ⟨rfl, rfl, rfl, ?_, ?_⟩
  · simp [onApplicationStart, onApplicationEnd, isInitialized]
  · intro n
    simp [onApplicationStart, onApplicationEnd, isInitialized]

/-- C10: an empty cache map fails validation — the reduce starts from
"the map has at least one key" — so both constructing the API and the API's
`onApplicationStart` throw the configuration error (naming the initial empty
store name), for any prior ADI state. -/
theorem emptyCacheMap_throws :
    validateCacheMap [] = .error "Invalid ADI interface for CacheMap DB \"\"" ∧
    createDataCacheAPI [] = .error "Invalid ADI interface for CacheMap DB \"\"" ∧
    ∀ st : ADIState, apiOnApplicationStart [] st =
      .error "Invalid ADI interface for CacheMap DB \"\"" :=
  ⟨rfl, rfl, fun _ => rfl⟩

end ADI
